import Mathlib

/-!
Verification of the Vanderwaals wallpaper curation pipeline
(`scripts/curate_wallpapers.py`) against its specification.

The Python script is shallowly embedded: pure functions become Lean
functions, external-library computations (PIL, sklearn, TensorFlow,
imagehash, git) are modelled by their recorded results carried on the
input data, and file-system effects are modelled either at the state
level (checkpoint contents) or as explicit operation traces (for the
atomicity analysis of `save_checkpoint`).
-/

namespace Vanderwaals

/-! ## Configuration constants (`curate_wallpapers.py`, CONFIGURATION section) -/

/-- Source constant `SUPPORTED_EXTENSIONS` = {'.jpg', '.jpeg', '.png', '.webp'} (a Python
set; modelled as a list, membership is all that is ever used). -/
def SUPPORTED_EXTENSIONS : List String := [".jpg", ".jpeg", ".png", ".webp"]

/-- Source constant `MIN_RESOLUTION = (800, 600)`. -/
def MIN_RESOLUTION : Nat × Nat := (800, 600)

/-- Source constant `MAX_FILE_SIZE = 20 * 1024 * 1024`. -/
def MAX_FILE_SIZE : Nat := 20 * 1024 * 1024

/-- Source constant `PHASH_THRESHOLD = 5`. -/
def PHASH_THRESHOLD : Nat := 5

/-- Source constant `CHECKPOINT_PATH`, the fixed checkpoint file path. -/
def CHECKPOINT_PATH : String := "curation_output/checkpoint.json"

/-! ## Perceptual hashes (imagehash model)

`str(imagehash.phash(img))` is a hex string; `imagehash.hex_to_hash`
parses it back, and `h1 - h2` is the Hamming distance between the
two fixed-width bit vectors, i.e. the popcount of their XOR.  We model
a parsed hash as the natural number its hex digits denote. -/

/-- Number of set bits of a natural number. -/
def popCount : Nat → Nat
  | 0 => 0
  | n + 1 => (n + 1) % 2 + popCount ((n + 1) / 2)
decreasing_by exact Nat.div_lt_self (Nat.succ_pos n) (by decide)

/-- Value of one hex digit (both cases accepted; phash strings are
lowercase hex). -/
def hexDigitVal (c : Char) : Nat :=
  if '0' ≤ c ∧ c ≤ '9' then c.toNat - '0'.toNat
  else if 'a' ≤ c ∧ c ≤ 'f' then c.toNat - 'a'.toNat + 10
  else if 'A' ≤ c ∧ c ≤ 'F' then c.toNat - 'A'.toNat + 10
  else 0

/-- Model of `imagehash.hex_to_hash`: the numeric value of a hex string. -/
def hexToHash (s : String) : Nat :=
  s.data.foldl (fun acc c => acc * 16 + hexDigitVal c) 0

/-- Model of `ImageHash.__sub__`: Hamming distance between two
fixed-width hashes, i.e. the popcount of the XOR of their bit vectors. -/
def hammingDist (a b : Nat) : Nat := popCount (a ^^^ b)

/-- The duplicate-check loop of `process_repository` (lines 597-601):
iterate over the seen set, break as soon as one hash is within
`PHASH_THRESHOLD`. -/
def isDuplicateLoop (processed_hashes : List String) (phash : String) : Bool :=
  processed_hashes.any fun existing_hash =>
    decide (hammingDist (hexToHash phash) (hexToHash existing_hash) ≤ PHASH_THRESHOLD)

/-! ## Data model: wallpaper records and checkpoints -/

/-- The `wallpaper_data` dict built in `process_repository`.  Embedding
components are modelled as rationals (JSON round-trips Python floats
exactly; their numeric semantics are never computed on). -/
structure Wallpaper where
  id : String
  url : String
  thumbnail : String
  source : String
  repo : String
  category : String
  colors : List String
  brightness : Int
  contrast : Int
  embedding : List Rat
  resolution : String
  attribution : String
deriving DecidableEq

/-- The parsed JSON object of a well-formed checkpoint file.  Fields are
optional because `load_checkpoint` reads them with `dict.get` defaults. -/
structure CheckpointJson where
  wallpapers : Option (List Wallpaper)
  last_repo_index : Option Nat
  timestamp : Option String
deriving DecidableEq

/-- State of the checkpoint file as `load_checkpoint` can observe it:
absent, present but unreadable/unparsable, or parsed JSON. -/
inductive CheckpointFile
  | absent
  | corrupt
  | parsed (data : CheckpointJson)
deriving DecidableEq

/-- Model of `save_checkpoint(wallpapers, repo_index)` (state level): the file
afterwards holds the JSON document
`{'wallpapers': ..., 'last_repo_index': ..., 'timestamp': ...}`.
`json.dump`/`json.load` round-trip JSON-representable data verbatim,
so serialization is the identity at this level of the model. -/
def save_checkpoint (wallpapers : List Wallpaper) (repo_index : Nat) (ts : String) :
    CheckpointFile :=
  CheckpointFile.parsed ⟨some wallpapers, some repo_index, some ts⟩

/-- Model of `load_checkpoint()` (lines 667-693): missing file → empty state;
read/parse failure → caught, empty state; otherwise the record list and
`last_repo_index + 1`, with a freshly empty hash set (the comment in the
source says "Rebuild hash set (approximate - using IDs as proxy)" but the
code assigns `processed_hashes = set()`). -/
def load_checkpoint : CheckpointFile → List Wallpaper × Nat × List String
  | .absent => ([], 0, [])
  | .corrupt => ([], 0, [])
  | .parsed data =>
      (data.wallpapers.getD [], data.last_repo_index.getD 0 + 1, [])

/-! ## MD5 (model of Python's `hashlib.md5(...).hexdigest()`)

`generate_wallpaper_id` hashes the UTF-8 encoding of
`f"{repo_name}/{relative_path}"` with MD5 and keeps the first 12 hex
digits.  MD5 is implemented here per RFC 1321 over byte lists, with
32-bit words represented as naturals reduced mod `2^32`. -/

/-- UTF-8 encoding of one Unicode code point (as byte values). -/
def utf8Bytes (c : Char) : List Nat :=
  let n := c.toNat
  if n < 128 then [n]
  else if n < 2048 then [192 + n / 64, 128 + n % 64]
  else if n < 65536 then [224 + n / 4096, 128 + n / 64 % 64, 128 + n % 64]
  else [240 + n / 262144, 128 + n / 4096 % 64, 128 + n / 64 % 64, 128 + n % 64]

/-- Model of `str.encode()`: the UTF-8 bytes of a string. -/
def strBytes (s : String) : List Nat := (s.data.map utf8Bytes).flatten

/-- The word modulus `2^32`. -/
def m32 : Nat := 4294967296

/-- Left-rotation of a 32-bit word by `s` bits (`0 < s < 32`, `x < 2^32`). -/
def rotl32 (x s : Nat) : Nat := x * 2 ^ s % m32 + x / 2 ^ (32 - s)

/-- The 64 MD5 sine-derived constants `K[i] = floor(2^32 * abs(sin(i+1)))`. -/
def md5K : List Nat :=
  [0xd76aa478, 0xe8c7b756, 0x242070db, 0xc1bdceee,
   0xf57c0faf, 0x4787c62a, 0xa8304613, 0xfd469501,
   0x698098d8, 0x8b44f7af, 0xffff5bb1, 0x895cd7be,
   0x6b901122, 0xfd987193, 0xa679438e, 0x49b40821,
   0xf61e2562, 0xc040b340, 0x265e5a51, 0xe9b6c7aa,
   0xd62f105d, 0x02441453, 0xd8a1e681, 0xe7d3fbc8,
   0x21e1cde6, 0xc33707d6, 0xf4d50d87, 0x455a14ed,
   0xa9e3e905, 0xfcefa3f8, 0x676f02d9, 0x8d2a4c8a,
   0xfffa3942, 0x8771f681, 0x6d9d6122, 0xfde5380c,
   0xa4beea44, 0x4bdecfa9, 0xf6bb4b60, 0xbebfbc70,
   0x289b7ec6, 0xeaa127fa, 0xd4ef3085, 0x04881d05,
   0xd9d4d039, 0xe6db99e5, 0x1fa27cf8, 0xc4ac5665,
   0xf4292244, 0x432aff97, 0xab9423a7, 0xfc93a039,
   0x655b59c3, 0x8f0ccc92, 0xffeff47d, 0x85845dd1,
   0x6fa87e4f, 0xfe2ce6e0, 0xa3014314, 0x4e0811a1,
   0xf7537e82, 0xbd3af235, 0x2ad7d2bb, 0xeb86d391]

/-- The per-step rotation amounts. -/
def md5S : List Nat :=
  [7, 12, 17, 22, 7, 12, 17, 22, 7, 12, 17, 22, 7, 12, 17, 22,
   5, 9, 14, 20, 5, 9, 14, 20, 5, 9, 14, 20, 5, 9, 14, 20,
   4, 11, 16, 23, 4, 11, 16, 23, 4, 11, 16, 23, 4, 11, 16, 23,
   6, 10, 15, 21, 6, 10, 15, 21, 6, 10, 15, 21, 6, 10, 15, 21]

/-- The non-linear round function of step `i` applied to `(b, c, d)`. -/
def md5F (i b c d : Nat) : Nat :=
  if i < 16 then (b &&& c) ||| ((m32 - 1 - b) &&& d)
  else if i < 32 then (d &&& b) ||| ((m32 - 1 - d) &&& c)
  else if i < 48 then b ^^^ c ^^^ d
  else c ^^^ (b ||| (m32 - 1 - d))

/-- The message-word index accessed at step `i`. -/
def md5G (i : Nat) : Nat :=
  if i < 16 then i
  else if i < 32 then (5 * i + 1) % 16
  else if i < 48 then (3 * i + 5) % 16
  else 7 * i % 16

/-- MD5 padding: append `0x80`, zero-pad to 56 mod 64 bytes, then the
original length in bits as a 64-bit little-endian quantity. -/
def md5Pad (msg : List Nat) : List Nat :=
  let len := msg.length
  let k := (120 - (len + 1) % 64) % 64
  let bitLen := len * 8 % 2 ^ 64
  msg ++ [128] ++ List.replicate k 0 ++
    (List.range 8).map (fun i => bitLen / 2 ^ (8 * i) % 256)

/-- Split a byte list into 64-byte chunks. -/
def chunks64 (l : List Nat) : List (List Nat) :=
  if h : l = [] then []
  else l.take 64 :: chunks64 (l.drop 64)
termination_by l.length
decreasing_by
  simp only [List.length_drop]
  have : 0 < l.length := List.length_pos.mpr h
  omega

/-- Little-endian 32-bit word number `g` of a 64-byte chunk. -/
def leWord (chunk : List Nat) (g : Nat) : Nat :=
  chunk.getD (4 * g) 0 + chunk.getD (4 * g + 1) 0 * 256 +
    chunk.getD (4 * g + 2) 0 * 65536 + chunk.getD (4 * g + 3) 0 * 16777216

/-- The 64 MD5 steps on one chunk, from state `(a, b, c, d)`. -/
def md5Steps (chunk : List Nat) (st : Nat × Nat × Nat × Nat) :
    Nat × Nat × Nat × Nat :=
  (List.range 64).foldl
    (fun st i =>
      let a := st.1
      let b := st.2.1
      let c := st.2.2.1
      let d := st.2.2.2
      let tmp := (a + md5F i b c d + md5K.getD i 0 + leWord chunk (md5G i)) % m32
      (d, (b + rotl32 tmp (md5S.getD i 0)) % m32, b, c))
    st

/-- Full MD5 state after processing a message. -/
def md5Process (msg : List Nat) : Nat × Nat × Nat × Nat :=
  (chunks64 (md5Pad msg)).foldl
    (fun st chunk =>
      let r := md5Steps chunk st
      ((st.1 + r.1) % m32, (st.2.1 + r.2.1) % m32,
       (st.2.2.1 + r.2.2.1) % m32, (st.2.2.2 + r.2.2.2) % m32))
    (0x67452301, 0xefcdab89, 0x98badcfe, 0x10325476)

/-- Lowercase hex digit. -/
def hexDigitChar (n : Nat) : Char :=
  if n < 10 then Char.ofNat (48 + n) else Char.ofNat (87 + n)

/-- Two lowercase hex digits of a byte. -/
def byteHex (b : Nat) : List Char := [hexDigitChar (b / 16), hexDigitChar (b % 16)]

/-- A 32-bit word rendered as 8 hex digits, little-endian byte order,
as `hexdigest()` renders the MD5 state. -/
def wordLEHex (w : Nat) : List Char :=
  byteHex (w % 256) ++ byteHex (w / 256 % 256) ++
    byteHex (w / 65536 % 256) ++ byteHex (w / 16777216 % 256)

/-- Model of `hashlib.md5(msg).hexdigest()`. -/
def md5Hex (msg : List Nat) : String :=
  let r := md5Process msg
  String.mk (wordLEHex r.1 ++ wordLEHex r.2.1 ++ wordLEHex r.2.2.1 ++ wordLEHex r.2.2.2)

/-! ## Identifier, URL and category derivation -/

/-- Model of `generate_wallpaper_id(repo_name, relative_path)` (lines 529-538). -/
def generate_wallpaper_id (repo_name relative_path : String) : String :=
  let hash_input := repo_name ++ "/" ++ relative_path
  let hash_hex := (md5Hex (strBytes hash_input)).take 12
  let repo_short :=
    ((((repo_name.splitOn "/").headD "").replace "-" "").replace "_" "").take 8
  repo_short ++ "_" ++ hash_hex

/-- Model of `generate_cdn_url(repo_name, relative_path, branch)` (lines 540-546). -/
def generate_cdn_url (repo_name relative_path : String) (branch : String) : String :=
  let clean_path :=
    String.mk (((relative_path.replace "\\" "/").data).dropWhile (fun c => c = '/'))
  "https://cdn.jsdelivr.net/gh/" ++ repo_name ++ "@" ++ branch ++ "/" ++ clean_path

/-- Source table `CATEGORY_KEYWORDS` (lines 308-320); a Python dict, iterated in
insertion order. -/
def CATEGORY_KEYWORDS : List (String × List String) :=
  [("nature", ["nature", "landscape", "forest", "mountain", "ocean", "sunset",
               "sunrise", "sky"]),
   ("minimal", ["minimal", "minimalist", "simple", "clean"]),
   ("dark", ["dark", "black", "night", "moody"]),
   ("abstract", ["abstract", "geometric", "pattern", "art"]),
   ("anime", ["anime", "manga", "waifu", "character"]),
   ("gruvbox", ["gruvbox"]),
   ("nord", ["nord", "nordic"]),
   ("city", ["city", "urban", "building", "street"]),
   ("space", ["space", "planet", "galaxy", "star", "nebula"]),
   ("gradient", ["gradient", "color"]),
   ("gaming", ["game", "gaming", "cyberpunk"])]

/-- Python's `sub in s` substring test: `sub` occurs contiguously in `s`. -/
def strContains (s sub : String) : Bool :=
  (List.range (s.data.length + 1)).any fun i => sub.data.isPrefixOf (s.data.drop i)

/-- Model of `str.lower()` (ASCII range; every string the pipeline
lowercases — paths and repository names — is ASCII). -/
def charLower (c : Char) : Char :=
  if 'A' ≤ c ∧ c ≤ 'Z' then Char.ofNat (c.toNat + 32) else c

/-- Model of `str.lower()` on whole strings. -/
def strLower (s : String) : String := String.mk (s.data.map charLower)

/-- Test that `s` ends with `suffix` (the trailing-match test a `rglob` pattern
`*ext` performs on a file name). -/
def strEndsWith (s suffix : String) : Bool :=
  suffix.data.reverse.isPrefixOf s.data.reverse

/-- Model of `detect_category(file_path, repo_name)` (lines 322-351): first
keyword match in table order, then repo-name fallbacks, then `"other"`. -/
def detect_category (file_path repo_name : String) : String :=
  let path_str := strLower file_path
  match CATEGORY_KEYWORDS.find? (fun ck => ck.2.any fun kw => strContains path_str kw) with
  | some ck => ck.1
  | none =>
      if strContains (strLower repo_name) "minimal" then "minimal"
      else if strContains (strLower repo_name) "nordic" then "nord"
      else if strContains (strLower repo_name) "aesthetic" then "aesthetic"
      else "other"

/-! ## Repository configuration and the per-image processing loop -/

/-- One entry of the `REPOSITORIES` configuration list. -/
structure RepoCfg where
  url : String
  branch : String
  name : String
  test_path : String
deriving DecidableEq

/-- The `REPOSITORIES` list (lines 61-110). -/
def REPOSITORIES : List RepoCfg :=
  [⟨"https://github.com/dharmx/walls", "main", "dharmx/walls", "animated"⟩,
   ⟨"https://github.com/D3Ext/aesthetic-wallpapers", "main",
    "D3Ext/aesthetic-wallpapers", "images/anime"⟩,
   ⟨"https://github.com/makccr/wallpapers", "master", "makccr/wallpapers",
    "Abstract"⟩,
   ⟨"https://github.com/michaelScopic/Wallpapers", "main",
    "michaelScopic/Wallpapers", "Minimal"⟩,
   ⟨"https://github.com/fr0st-iwnl/wallz", "main", "fr0st-iwnl/wallz",
    "gruvbox"⟩,
   ⟨"https://github.com/linuxdotexe/nordic-wallpapers", "master",
    "linuxdotexe/nordic-wallpapers", "wallpapers"⟩,
   ⟨"https://github.com/Mvcvalli/mobile-wallpapers", "main",
    "Mvcvalli/mobile-wallpapers", "."⟩,
   ⟨"https://github.com/DenverCoder1/minimalistic-wallpaper-collection", "main",
    "DenverCoder1/minimalistic-wallpaper-collection", "images/minimalistic"⟩]

/-- One candidate image inside a cloned repository, together with the
results of the external (PIL / sklearn / TensorFlow / imagehash)
computations invoked on it: `compute_perceptual_hash` returns `""` on
failure, `EmbeddingExtractor.extract` returns `None` on failure, and the
color/brightness/contrast/resolution helpers are total (they catch their
own exceptions and return documented defaults). -/
structure Candidate where
  relativePath : String
  phash : String
  embedding : Option (List Rat)
  colors : List String
  brightness : Int
  contrast : Int
  resolution : String
deriving DecidableEq

/-- The `wallpaper_data` record built for an accepted candidate
(lines 628-641). -/
def mkWallpaper (repo : RepoCfg) (c : Candidate) (emb : List Rat) : Wallpaper :=
  { id := generate_wallpaper_id repo.name c.relativePath
    url := generate_cdn_url repo.name c.relativePath repo.branch
    thumbnail := generate_cdn_url repo.name c.relativePath repo.branch
    source := "github"
    repo := repo.name
    category := detect_category c.relativePath repo.name
    colors := c.colors
    brightness := c.brightness
    contrast := c.contrast
    embedding := emb
    resolution := c.resolution
    attribution := repo.name }

/-- One iteration of the per-image loop of `process_repository`
(lines 589-648), acting on the accumulated `(wallpapers,
processed_hashes)` state: skip if hashing failed, skip if duplicate,
skip if embedding extraction failed, otherwise append the record and
register the fingerprint. -/
def processImage (repo : RepoCfg) (st : List Wallpaper × List String)
    (c : Candidate) : List Wallpaper × List String :=
  if c.phash = "" then st
  else if isDuplicateLoop st.2 c.phash then st
  else
    match c.embedding with
    | none => st
    | some emb => (st.1 ++ [mkWallpaper repo c emb], c.phash :: st.2)

/-- The whole per-image loop over the scanned candidates in order. -/
def processImages (repo : RepoCfg) (st : List Wallpaper × List String)
    (cands : List Candidate) : List Wallpaper × List String :=
  cands.foldl (processImage repo) st

/-! ## Asset scan (`find_wallpapers`, lines 505-527) -/

/-- A file in a cloned tree, with the attributes the scan consults.
`readable = false` models `Image.open` (or `stat`) raising, which the
scan swallows with `except Exception: continue`. -/
structure ScanFile where
  name : String
  size : Nat
  width : Nat
  height : Nat
  readable : Bool
deriving DecidableEq

/-- Model of `find_wallpapers(repo_path)`: for each supported extension, collect
the files matched by `rglob(f"*{ext}")` — on a POSIX filesystem this
pattern match is case-sensitive, so it selects names that end with the
literal (lowercase) extension — then keep the ones within the size
bound, readable as images, and at or above the minimum resolution. -/
def find_wallpapers (files : List ScanFile) : List ScanFile :=
  let wallpapers :=
    SUPPORTED_EXTENSIONS.foldl
      (fun acc ext => acc ++ files.filter fun f => strEndsWith f.name ext) []
  wallpapers.filter fun f =>
    decide (f.size ≤ MAX_FILE_SIZE) && f.readable &&
      decide (MIN_RESOLUTION.1 ≤ f.width) && decide (MIN_RESOLUTION.2 ≤ f.height)

/-! ## Source acquisition (`clone_repository`, lines 357-503)

Each attempt of the retry loop runs git; what matters to the control
flow is which of four outcomes the attempt produced:

* `ok`          — clone (or the sparse init + checkout sequence) succeeded;
* `timeout`     — `subprocess.TimeoutExpired`;
* `netErr`      — nonzero exit whose stderr contains `'Could not resolve
                  host'` or `'Connection'`;
* `permErr`     — any other nonzero exit (authentication failure, unknown
                  branch, malformed URL, ...).

In sparse (test) mode a nonzero exit raises a plain `Exception`, which is
caught by the generic `except Exception` handler — so there `netErr` and
`permErr` take the same retried path.  In full mode `netErr` is retried
and `permErr` returns `None` immediately. -/

inductive CloneOutcome
  | ok
  | timeout
  | netErr
  | permErr
deriving DecidableEq

/-- The `time.sleep` the code performs before retrying after this
outcome: 10s after a full-clone timeout, 5s everywhere else. -/
def retrySleep (sparse : Bool) : CloneOutcome → Nat
  | .timeout => if sparse then 5 else 10
  | _ => 5

/-- The retry loop of `clone_repository`, returning
`(succeeded, attempts used, total seconds slept)`.  `budget` is the
remaining value of `max_retries - attempt`; `outcomes` lists what each
successive attempt would encounter.  A failure on the last allowed
attempt returns immediately without sleeping. -/
def cloneAttempts (sparse : Bool) : List CloneOutcome → Nat → Bool × Nat × Nat
  | _, 0 => (false, 0, 0)
  | [], _ => (false, 0, 0)
  | o :: rest, b + 1 =>
    match o with
    | .ok => (true, 1, 0)
    | .timeout =>
        if b = 0 then (false, 1, 0)
        else
          let r := cloneAttempts sparse rest b
          (r.1, r.2.1 + 1, r.2.2 + retrySleep sparse .timeout)
    | .netErr =>
        if sparse then
          if b = 0 then (false, 1, 0)
          else
            let r := cloneAttempts sparse rest b
            (r.1, r.2.1 + 1, r.2.2 + 5)
        else
          if b = 0 then (false, 1, 0)
          else
            let r := cloneAttempts sparse rest b
            (r.1, r.2.1 + 1, r.2.2 + 5)
    | .permErr =>
        if sparse then
          if b = 0 then (false, 1, 0)
          else
            let r := cloneAttempts sparse rest b
            (r.1, r.2.1 + 1, r.2.2 + 5)
        else (false, 1, 0)

/-- Model of `clone_repository(repo, temp_dir, test_mode, max_retries=3)`:
sparse mode is taken when `test_mode` is set and the repo config has a
`test_path` key (all configured repos do). -/
def clone_repository (test_mode has_test_path : Bool)
    (outcomes : List CloneOutcome) : Bool × Nat × Nat :=
  cloneAttempts (test_mode && has_test_path) outcomes 3

/-! ## The orchestrator's checkpoint sequence (`main`, lines 779-792) -/

/-- The checkpoints written by the repository loop of `main`: starting
from `all_wallpapers = initial` at source index `start_index`, each
iteration extends the accumulator with that repository's results and
saves `(all_wallpapers, idx)`. -/
def runCheckpoints (start_index : Nat) (initial : List Wallpaper) :
    List (List Wallpaper) → List (List Wallpaper × Nat)
  | [] => []
  | r :: rest =>
      (initial ++ r, start_index) :: runCheckpoints (start_index + 1) (initial ++ r) rest

/-! ## File-system trace model of `save_checkpoint` (lines 654-665)

For the atomicity analysis the state-level model is too coarse: we
record the sequence of file operations `save_checkpoint` performs.
`with open(CHECKPOINT_PATH, 'w')` truncates the checkpoint file in
place; `json.dump` then writes the serialized payload (modelled as a
single write; the real `json.dump` issues many small writes, which only
adds more intermediate states); there is no temporary file and no
rename. -/

inductive FsOp
  | openTruncate (path : String)
  | write (path : String) (data : String)
  | close (path : String)
  | rename (src dst : String)
deriving DecidableEq

/-- Effect of one operation on the file-system contents (path → data). -/
def applyOp (fs : String → String) : FsOp → String → String
  | .openTruncate p => fun q => if q = p then "" else fs q
  | .write p d => fun q => if q = p then fs q ++ d else fs q
  | .close _ => fs
  | .rename src dst => fun q =>
      if q = dst then fs src else if q = src then "" else fs q

/-- Contents after a sequence of operations. -/
def runOps (fs : String → String) : List FsOp → String → String
  | [] => fs
  | op :: rest => runOps (applyOp fs op) rest

/-- The operation trace of `save_checkpoint`, writing the serialized
checkpoint `payload`. -/
def saveCheckpointOps (payload : String) : List FsOp :=
  [FsOp.openTruncate CHECKPOINT_PATH,
   FsOp.write CHECKPOINT_PATH payload,
   FsOp.close CHECKPOINT_PATH]

/-- A trace follows the write-to-temp-then-atomic-replace discipline for
`final` when no operation truncates or writes `final` directly and some
rename installs `final`. -/
def isAtomicReplace (ops : List FsOp) (final : String) : Prop :=
  (∀ op ∈ ops,
    match op with
    | FsOp.openTruncate p => p ≠ final
    | FsOp.write p _ => p ≠ final
    | _ => True) ∧
  ∃ tmp, FsOp.rename tmp final ∈ ops

/-! ## Concrete data for counterexamples -/

/-- A candidate whose perceptual hash succeeds but whose embedding
extraction fails (`EmbeddingExtractor.extract` returned `None`); the
metadata fields carry the documented defaults. -/
def cand_embed_fail : Candidate :=
  { relativePath := "animated/broken.png"
    phash := "8f373714acfcf4d0"
    embedding := none
    colors := ["#000000", "#000000", "#000000", "#000000", "#000000"]
    brightness := 50
    contrast := 50
    resolution := "1920x1080" }

/-- A concrete accepted record, as data for the checkpoint run model. -/
def sampleWallpaper : Wallpaper :=
  { id := "dharmx_dbafc6f7d7de"
    url := "https://cdn.jsdelivr.net/gh/dharmx/walls@main/animated/a.png"
    thumbnail := "https://cdn.jsdelivr.net/gh/dharmx/walls@main/animated/a.png"
    source := "github"
    repo := "dharmx/walls"
    category := "other"
    colors := ["#000000"]
    brightness := 50
    contrast := 50
    embedding := []
    resolution := "1920x1080"
    attribution := "dharmx/walls" }

/-- Predicate: `b` is a strict superset of `a` (as sets of records). -/
def strictSuperset (a b : List Wallpaper) : Prop :=
  (∀ x ∈ a, x ∈ b) ∧ ∃ x ∈ b, x ∉ a

/-! ## Theorems -/

/-- C1: Checkpoint round-trip — for every list of records and every
source index `i`, `save_checkpoint(records, i)` followed by
`load_checkpoint()` yields a record list equal to the original list and
a resume index equal to `i + 1` (and a fresh empty fingerprint set). -/
theorem checkpoint_roundtrip (records : List Wallpaper) (i : Nat) (ts : String) :
    load_checkpoint (save_checkpoint records i ts) = (records, i + 1, []) := rfl

/-- C5: On resume, `load_checkpoint` returns an empty fingerprint set
for every possible state of the checkpoint file — in particular it does
not reconstruct the fingerprint set from the restored records — and
against an empty seen set no fingerprint is ever classified as a
duplicate, so near-duplicates of pre-checkpoint assets are re-admitted. -/
theorem load_checkpoint_no_fingerprints :
    (∀ f : CheckpointFile, (load_checkpoint f).2.2 = []) ∧
      ∀ phash : String, isDuplicateLoop [] phash = false := by
  refine ⟨fun f => ?_, fun _ => rfl⟩
  cases f <;> rfl

/-- C6: The Hamming distance between perceptual fingerprints is
symmetric, and the duplicate-check loop classifies a fingerprint as a
duplicate of the seen set exactly when its distance to some seen
fingerprint is at most `PHASH_THRESHOLD`, which is the constant 5. -/
theorem phash_symmetry_and_threshold :
    (∀ a b : Nat, hammingDist a b = hammingDist b a) ∧
      (∀ (seen : List String) (phash : String),
        isDuplicateLoop seen phash = true ↔
          ∃ e ∈ seen,
            hammingDist (hexToHash phash) (hexToHash e) ≤ PHASH_THRESHOLD) ∧
      PHASH_THRESHOLD = 5 := by
  refine ⟨fun a b => ?_, fun seen phash => ?_, rfl⟩
  · simp only [hammingDist, Nat.xor_comm]
  · simp only [isDuplicateLoop, List.any_eq_true, decide_eq_true_iff]

/-- C9: Identifier generation is deterministic and idempotent —
`generate_wallpaper_id` is a pure function of the
`(repo_name, relative_path)` pair alone (it hashes the pair with MD5 and
decorates with a sanitized repo prefix), so any two calls on equal
inputs, in the same run or across runs, return the same identifier. -/
theorem generate_wallpaper_id_deterministic (n1 p1 n2 p2 : String)
    (hn : n1 = n2) (hp : p1 = p2) :
    generate_wallpaper_id n1 p1 = generate_wallpaper_id n2 p2 := by
  subst hn; subst hp; rfl

/-- Witness for C9 at the first configured repository and a concrete
relative path. -/
theorem generate_wallpaper_id_deterministic_witness :
    generate_wallpaper_id "dharmx/walls" "animated/a.png" =
      generate_wallpaper_id "dharmx/walls" "animated/a.png" :=
  generate_wallpaper_id_deterministic "dharmx/walls" "animated/a.png"
    "dharmx/walls" "animated/a.png" rfl rfl

/-- C10: If the checkpoint file is absent, or exists but cannot be read
or parsed (every such failure is caught by the `except` handler),
`load_checkpoint` returns the empty state — empty record list, resume
index 0, empty fingerprint set — instead of raising. -/
theorem load_checkpoint_degrades_to_fresh :
    load_checkpoint CheckpointFile.absent = ([], 0, []) ∧
      load_checkpoint CheckpointFile.corrupt = ([], 0, []) :=
  ⟨rfl, rfl⟩

/-- C2 counterexample: the operation trace of `save_checkpoint` does not
follow the write-to-temp-then-atomic-replace discipline — it opens the
checkpoint file itself for truncating write, and performs no rename. -/
theorem save_checkpoint_no_atomic_replace :
    ¬ isAtomicReplace (saveCheckpointOps "payload") CHECKPOINT_PATH := by
  intro h
  exact h.1 (FsOp.openTruncate CHECKPOINT_PATH) (by simp [saveCheckpointOps]) rfl

/-- C2 amended: `save_checkpoint` rewrites the checkpoint file in place
— a completed save leaves exactly the new payload, but truncation
happens before the payload is written, so a crash between the two leaves
a checkpoint (here: empty) that is neither the old nor the new state. -/
theorem save_checkpoint_in_place_crash (old payload : String)
    (hold : old ≠ "") (hpay : payload ≠ "") :
    runOps (fun q => if q = CHECKPOINT_PATH then old else "")
        (saveCheckpointOps payload) CHECKPOINT_PATH = payload ∧
      ∃ k,
        runOps (fun q => if q = CHECKPOINT_PATH then old else "")
            ((saveCheckpointOps payload).take k) CHECKPOINT_PATH ≠ old ∧
          runOps (fun q => if q = CHECKPOINT_PATH then old else "")
            ((saveCheckpointOps payload).take k) CHECKPOINT_PATH ≠ payload := by
  constructor
  · simp [saveCheckpointOps, runOps, applyOp]
  · refine ⟨1, ?_, ?_⟩ <;>
      simpa [saveCheckpointOps, runOps, applyOp] using by
        first
          | exact fun e => hold e.symm
          | exact fun e => hpay e.symm

/-- C2 witness: concrete old checkpoint `"a"`, new payload `"b"`. -/
theorem save_checkpoint_in_place_crash_witness :
    runOps (fun q => if q = CHECKPOINT_PATH then "a" else "")
        (saveCheckpointOps "b") CHECKPOINT_PATH = "b" ∧
      ∃ k,
        runOps (fun q => if q = CHECKPOINT_PATH then "a" else "")
            ((saveCheckpointOps "b").take k) CHECKPOINT_PATH ≠ "a" ∧
          runOps (fun q => if q = CHECKPOINT_PATH then "a" else "")
            ((saveCheckpointOps "b").take k) CHECKPOINT_PATH ≠ "b" :=
  save_checkpoint_in_place_crash "a" "b" (by decide) (by decide)

/-- Each loop iteration either leaves the state unchanged or appends
exactly one record and registers exactly one fingerprint. -/
theorem processImage_cases (repo : RepoCfg) (st : List Wallpaper × List String)
    (c : Candidate) :
    processImage repo st c = st ∨
      ((processImage repo st c).1.length = st.1.length + 1 ∧
        (processImage repo st c).2.length = st.2.length + 1) := by
  unfold processImage
  by_cases hp : c.phash = ""
  · simp [hp]
  · by_cases hd : isDuplicateLoop st.2 c.phash
    · simp [hp, hd]
    · cases he : c.embedding with
      | none => simp [hp, hd, he]
      | some emb => simp [hp, hd, he]

/-- C3 counterexample: a candidate whose hash computation succeeded and
which the duplicate check accepts (the seen set is empty), but whose
embedding extraction failed, is skipped without its fingerprint being
added — after the iteration the seen set still does not contain it. -/
theorem fingerprint_registration_counterexample :
    cand_embed_fail.phash ≠ "" ∧
      isDuplicateLoop [] cand_embed_fail.phash = false ∧
      processImage (REPOSITORIES.get ⟨0, by decide⟩) ([], []) cand_embed_fail =
        ([], []) ∧
      cand_embed_fail.phash ∉
        (processImage (REPOSITORIES.get ⟨0, by decide⟩) ([], []) cand_embed_fail).2 := by
  decide

/-- C3 amended: an accepted candidate's fingerprint is registered
atomically with its record, but only when its embedding extraction also
succeeds — a candidate that passes the duplicate check and then fails
embedding extraction is skipped with no fingerprint registered.  Hence
over any candidate sequence the fingerprint set gains exactly one entry
per record accumulated. -/
theorem fingerprint_registration_amended (repo : RepoCfg)
    (st : List Wallpaper × List String) (c : Candidate) (cs : List Candidate) :
    (processImage repo st c =
      if c.phash ≠ "" ∧ isDuplicateLoop st.2 c.phash = false ∧ c.embedding.isSome
      then (st.1 ++ [mkWallpaper repo c (c.embedding.getD [])], c.phash :: st.2)
      else st) ∧
      (processImages repo st cs).1.length + st.2.length =
        (processImages repo st cs).2.length + st.1.length := by
  constructor
  · unfold processImage
    by_cases hp : c.phash = ""
    · simp [hp]
    · by_cases hd : isDuplicateLoop st.2 c.phash
      · simp [hp, hd]
      · cases he : c.embedding with
        | none => simp [hp, hd, he]
        | some emb => simp [hp, hd, he]
  · induction cs generalizing st with
    | nil => simp [processImages, Nat.add_comm]
    | cons c0 cs ih =>
        have hstep := processImage_cases repo st c0
        have hfold : processImages repo st (c0 :: cs) =
            processImages repo (processImage repo st c0) cs := rfl
        rcases hstep with heq | ⟨h1, h2⟩
        · rw [hfold, heq]
          exact ih _
        · rw [hfold]
          have := ih (processImage repo st c0)
          omega

/-- Closed form of the checkpoint sequence: the `k`-th checkpoint of a
run holds the initial records followed by everything the first `k + 1`
processed sources contributed, at source index `start + k`. -/
theorem runCheckpoints_get (rs : List (List Wallpaper)) :
    ∀ (s : Nat) (init : List Wallpaper) (k : Nat)
      (h : k < (runCheckpoints s init rs).length),
      (runCheckpoints s init rs).get ⟨k, h⟩ =
        (init ++ (rs.take (k + 1)).flatten, s + k) := by
  induction rs with
  | nil => intro s init k h; simp [runCheckpoints] at h
  | cons r rest ih =>
      intro s init k h
      cases k with
      | zero => simp [runCheckpoints]
      | succ k =>
          have h' : k < (runCheckpoints (s + 1) (init ++ r) rest).length := by
            simpa [runCheckpoints] using h
          calc (runCheckpoints s init (r :: rest)).get ⟨k + 1, h⟩
              = (runCheckpoints (s + 1) (init ++ r) rest).get ⟨k, h'⟩ := rfl
            _ = ((init ++ r) ++ (rest.take (k + 1)).flatten, s + 1 + k) := ih _ _ _ _
            _ = (init ++ ((r :: rest).take (k + 1 + 1)).flatten, s + (k + 1)) := by
                simp [List.append_assoc]
                omega

/-- A prefix of a list of lists flattens to a prefix of the flattening. -/
theorem flatten_prefix_of_prefix {α : Type} {l1 l2 : List (List α)}
    (h : l1 <+: l2) : l1.flatten <+: l2.flatten := by
  obtain ⟨t, rfl⟩ := h
  exact ⟨t.flatten, (List.flatten_append l1 t).symm⟩

/-- C4 counterexample: in a run whose second source contributes no
records (e.g. its clone failed and `process_repository` returned the
empty list), the second checkpoint's record list equals the first's, so
it is not a strict superset of it. -/
theorem checkpoint_strict_superset_counterexample :
    (((runCheckpoints 0 [] [[sampleWallpaper], []]).get ⟨1, by decide⟩).1 =
        ((runCheckpoints 0 [] [[sampleWallpaper], []]).get ⟨0, by decide⟩).1) ∧
      ¬ strictSuperset
          (((runCheckpoints 0 [] [[sampleWallpaper], []]).get ⟨0, by decide⟩).1)
          (((runCheckpoints 0 [] [[sampleWallpaper], []]).get ⟨1, by decide⟩).1) := by
  refine ⟨rfl, ?_⟩
  show ¬ strictSuperset [sampleWallpaper] [sampleWallpaper]
  rintro ⟨-, x, hx, hnx⟩
  rw [List.mem_singleton] at hx
  subst hx
  exact hnx (List.mem_singleton.mpr rfl)

/-- C4 amended: across the checkpoints of one run, the record list of an
earlier checkpoint is always a prefix (hence a subset, though not
necessarily a strict one) of the record list of any later checkpoint. -/
theorem checkpoint_records_monotone (s : Nat) (init : List Wallpaper)
    (rs : List (List Wallpaper)) (i j : Nat) (hij : i ≤ j)
    (hj : j < (runCheckpoints s init rs).length) :
    ((runCheckpoints s init rs).get ⟨i, Nat.lt_of_le_of_lt hij hj⟩).1 <+:
      ((runCheckpoints s init rs).get ⟨j, hj⟩).1 := by
  rw [runCheckpoints_get rs s init i (Nat.lt_of_le_of_lt hij hj),
    runCheckpoints_get rs s init j hj]
  have htake : rs.take (i + 1) <+: rs.take (j + 1) := by
    rw [show rs.take (i + 1) = (rs.take (j + 1)).take (i + 1) by
      rw [List.take_take, Nat.min_eq_left (by omega)]]
    exact List.take_prefix _ _
  obtain ⟨t, ht⟩ := flatten_prefix_of_prefix htake
  exact ⟨t, by rw [List.append_assoc, ht]⟩

/-- C4 witness: two checkpoints of a concrete two-source run. -/
theorem checkpoint_records_monotone_witness :
    ((runCheckpoints 0 [] [[sampleWallpaper], [sampleWallpaper]]).get
        ⟨0, by decide⟩).1 <+:
      ((runCheckpoints 0 [] [[sampleWallpaper], [sampleWallpaper]]).get
        ⟨1, by decide⟩).1 :=
  checkpoint_records_monotone 0 [] [[sampleWallpaper], [sampleWallpaper]] 0 1
    (by decide) (by decide)

/-- The retry loop never makes more attempts than its budget. -/
theorem cloneAttempts_le (sparse : Bool) :
    ∀ (outcomes : List CloneOutcome) (b : Nat),
      (cloneAttempts sparse outcomes b).2.1 ≤ b := by
  intro outcomes
  induction outcomes with
  | nil => intro b; cases b <;> simp [cloneAttempts]
  | cons o rest ih =>
      intro b
      cases b with
      | zero => simp [cloneAttempts]
      | succ b =>
          have h2 := ih b
          cases o <;> simp only [cloneAttempts] <;> (try split_ifs) <;> simp_all

/-- C7 counterexample: in sparse (narrow) mode a non-transient failure —
a nonzero git exit that is not a timeout and not a network error — is
caught by the generic exception handler and retried after a 5-second
sleep: with a permanent error on attempt 1, the clone is attempted a
second time (and here even succeeds), instead of failing immediately. -/
theorem clone_sparse_perm_retry_counterexample :
    clone_repository true true [CloneOutcome.permErr, CloneOutcome.ok] =
      (true, 2, 5) := by
  decide

/-- C7 amended: transient failures (timeouts, network errors) are
retried in both modes with the per-mode sleeps, up to the 3-attempt
budget; a non-transient failure fails immediately with no retry in full
fetch mode only — in sparse (narrow) mode it is retried like any other
failure. -/
theorem clone_retry_policy (rest : List CloneOutcome) :
    clone_repository false true (CloneOutcome.permErr :: rest) = (false, 1, 0) ∧
      clone_repository true true (CloneOutcome.permErr :: rest) =
        (let r := cloneAttempts true rest 2; (r.1, r.2.1 + 1, r.2.2 + 5)) ∧
      clone_repository false true (CloneOutcome.netErr :: rest) =
        (let r := cloneAttempts false rest 2; (r.1, r.2.1 + 1, r.2.2 + 5)) ∧
      clone_repository true true (CloneOutcome.netErr :: rest) =
        (let r := cloneAttempts true rest 2; (r.1, r.2.1 + 1, r.2.2 + 5)) ∧
      clone_repository false true (CloneOutcome.timeout :: rest) =
        (let r := cloneAttempts false rest 2; (r.1, r.2.1 + 1, r.2.2 + 10)) ∧
      clone_repository true true (CloneOutcome.timeout :: rest) =
        (let r := cloneAttempts true rest 2; (r.1, r.2.1 + 1, r.2.2 + 5)) ∧
      ∀ (sparse : Bool) (outcomes : List CloneOutcome),
        (cloneAttempts sparse outcomes 3).2.1 ≤ 3 := by
  refine ⟨rfl, rfl, rfl, rfl, rfl, rfl, fun sparse outcomes => ?_⟩
  exact cloneAttempts_le sparse outcomes 3

/-- Membership in the extension-collection pass of `find_wallpapers`. -/
theorem mem_collect_by_extension (files : List ScanFile) (f : ScanFile) :
    ∀ (exts : List String) (acc : List ScanFile),
      (f ∈ exts.foldl
          (fun acc ext => acc ++ files.filter fun g => strEndsWith g.name ext) acc ↔
        f ∈ acc ∨ ∃ ext ∈ exts, f ∈ files ∧ strEndsWith f.name ext = true) := by
  intro exts
  induction exts with
  | nil => simp
  | cons e es ih =>
      intro acc
      rw [List.foldl_cons, ih]
      simp only [List.mem_append, List.mem_filter, List.mem_cons]
      constructor
      · rintro ((h | h) | ⟨ext, hext, hf⟩)
        · exact Or.inl h
        · exact Or.inr ⟨e, Or.inl rfl, h.1, h.2⟩
        · exact Or.inr ⟨ext, Or.inr hext, hf⟩
      · rintro (h | ⟨ext, hext | hext, hf⟩)
        · exact Or.inl (Or.inl h)
        · subst hext; exact Or.inl (Or.inr ⟨hf.1, hf.2⟩)
        · exact Or.inr ⟨ext, hext, hf⟩

/-- C8 counterexample: a well-sized, well-resolved, readable file named
`photos/a.JPG` matches the allow-list case-insensitively (its lowercase
name ends with `.jpg`) yet is not enumerated by the scan, because the
`rglob` patterns match the lowercase extensions case-sensitively. -/
theorem extension_case_counterexample :
    (∃ ext ∈ SUPPORTED_EXTENSIONS,
        strEndsWith (strLower "photos/a.JPG") ext = true) ∧
      find_wallpapers [⟨"photos/a.JPG", 1000, 1920, 1080, true⟩] = [] := by
  decide

/-- C8 amended: the scan's selection is case-sensitive — a file is
enumerated as a candidate exactly when it lies under the scanned root,
its name ends with one of the allow-listed extensions in that exact
(lowercase) spelling, its size is within the bound, it is readable as an
image, and it meets the minimum resolution. -/
theorem find_wallpapers_mem (files : List ScanFile) (f : ScanFile) :
    f ∈ find_wallpapers files ↔
      f ∈ files ∧
        (∃ ext ∈ SUPPORTED_EXTENSIONS, strEndsWith f.name ext = true) ∧
        f.size ≤ MAX_FILE_SIZE ∧ f.readable = true ∧
        MIN_RESOLUTION.1 ≤ f.width ∧ MIN_RESOLUTION.2 ≤ f.height := by
  unfold find_wallpapers
  rw [List.mem_filter, mem_collect_by_extension]
  simp only [List.not_mem_nil, false_or, Bool.and_eq_true, decide_eq_true_iff]
  constructor
  · rintro ⟨⟨ext, hext, hfile, hend⟩, ⟨⟨hsz, hrd⟩, hw⟩, hh⟩
    exact ⟨hfile, ⟨ext, hext, hend⟩, hsz, hrd, hw, hh⟩
  · rintro ⟨hfile, ⟨ext, hext, hend⟩, hsz, hrd, hw, hh⟩
    exact ⟨⟨ext, hext, hfile, hend⟩, ⟨⟨hsz, hrd⟩, hw⟩, hh⟩

end Vanderwaals
